import Mathlib

/-!
# tweets.go of golang-twitter-scraper: a shallow embedding

The methods of `tweets.go` are translated into state-passing Lean functions.

* The scraper is a record of the two fields the file reads or writes
  (`isOpenAccount`, `bearerToken`) and one field `other` for everything else.
* The methods and helpers that `tweets.go` calls but does not define
  (`newRequest`, `newRequestWithData`, `RequestAPI`, `setBearerToken`,
  `GetUserIDByScreenName`, `mapToJSONString`, the `parse` methods of the
  response types and the constant `bearerToken2`) are the fields of `Deps`:
  each theorem holds for every value of them.
* Every call of such a method also appends an `Event` to a trace carried
  next to the scraper, so that "calls exactly once" and "does not call" are
  statements about the trace.
-/

namespace TwitterScraper

/-! ## Values -/

/-- Go `error` values, identified by their message. -/
structure Error where
  msg : String
deriving DecidableEq, Repr

/-- The values placed in `map[string]interface{}` literals and handed to
`json.Marshal`: strings, integers, booleans and nested maps. -/
inductive JSON where
  | str (s : String)
  | num (n : Int)
  | bool (b : Bool)
  | obj (fields : List (String × JSON))
deriving Repr

/-- Go map assignment `m[k] = v` on a map kept as an association list. -/
def mapSet {β : Type} (m : List (String × β)) (k : String) (v : β) : List (String × β) :=
  match m with
  | [] => [(k, v)]
  | (k', v') :: rest => if k' = k then (k, v) :: rest else (k', v') :: mapSet rest k v

/-- Go map read `m[k]` with the presence flag: `none` when the key is absent. -/
def mapGet {β : Type} (m : List (String × β)) (k : String) : Option β :=
  match m with
  | [] => none
  | (k', v') :: rest => if k' = k then some v' else mapGet rest k

/-- The fields of a JSON object (no fields for a value that is not an object). -/
def JSON.fields : JSON → List (String × JSON)
  | JSON.obj fs => fs
  | _ => []

/-- Field access on a JSON object. -/
def JSON.get (j : JSON) (k : String) : Option JSON := mapGet j.fields k

/-- Go `url.Values`: each key maps to a list of values. -/
abbrev Values := List (String × List String)

/-- All the values under a key, `v[key]` in Go (empty when the key is absent). -/
def Values.values (v : Values) (key : String) : List String := (mapGet v key).getD []

/-- Go `url.Values.Set`: the key now maps to the single value. -/
def Values.Set (v : Values) (key value : String) : Values := mapSet v key [value]

/-- Go `url.Values.Add`: the value is appended to those under the key. -/
def Values.Add (v : Values) (key value : String) : Values :=
  mapSet v key (v.values key ++ [value])

/-- Go `strconv.Itoa`: the decimal representation of an integer. -/
def strconv_Itoa (n : Int) : String := toString n

/-- Go `fmt.Errorf("tweet with ID %s not found", id)`. -/
def errNotFound (id : String) : Error := ⟨"tweet with ID " ++ id ++ " not found"⟩

/-- An `*http.Request` as far as `tweets.go` touches it. `RawQuery` is kept in
decoded form: `req.URL.Query()` reads it and `req.URL.RawQuery = q.Encode()`
stores it. `Body` is the data given to `newRequestWithData`. -/
structure Request where
  Method : String
  URL : String
  RawQuery : Values
  Body : Option JSON
  Header : List (String × String)
deriving Repr

/-- Tweets: the identifier, and `fields` for all the other fields of the struct. -/
structure Tweet (α : Type) where
  ID : String
  fields : α
deriving DecidableEq, Repr

/-- The scraper: the two fields used by `tweets.go`, and `other` for the rest. -/
structure Scraper (σ : Type) where
  isOpenAccount : Bool
  bearerToken : String
  other : σ

/-- The calls that `tweets.go` makes to code outside the file. A `RequestAPI`
event also records the scraper's bearer token at the moment of the call. -/
inductive Event where
  | newRequest (method url : String)
  | newRequestWithData (method url : String) (data : JSON)
  | RequestAPI (req : Request) (bearer : String)
  | setBearerToken (token : String)
  | GetUserIDByScreenName (user : String)
  | parseTweets
  | parse

/-- The scraper together with the trace of outside calls made so far. -/
structure World (σ : Type) where
  s : Scraper σ
  trace : List Event

/-- The code that `tweets.go` uses and does not define. `ρ` is the decoded
response that `RequestAPI` stores in its target (`timelineV1`, `timelineV2`,
`threadedConversation`, `LikeAndBookmark`). -/
structure Deps (σ ρ α : Type) where
  bearerToken2 : String
  newRequest : Scraper σ → String → String → Scraper σ × Except Error Request
  newRequestWithData : Scraper σ → String → String → JSON → Scraper σ × Except Error Request
  RequestAPI : Scraper σ → Request → Scraper σ × Except Error ρ
  setBearerToken : Scraper σ → String → Scraper σ
  GetUserIDByScreenName : Scraper σ → String → Scraper σ × Except Error String
  mapToJSONString : JSON → String
  parseTweetsV1 : ρ → List (Tweet α) × String
  parseTweetsV2 : ρ → List (Tweet α) × String
  parseConversation : ρ → List (Tweet α)

section Calls

variable {σ ρ α : Type}

/-- The call `s.newRequest(method, url)`. -/
def callNewRequest (d : Deps σ ρ α) (w : World σ) (method url : String) :
    World σ × Except Error Request :=
  (⟨(d.newRequest w.s method url).1, w.trace ++ [Event.newRequest method url]⟩,
    (d.newRequest w.s method url).2)

/-- The call `s.newRequestWithData(method, url, data)`. -/
def callNewRequestWithData (d : Deps σ ρ α) (w : World σ) (method url : String) (data : JSON) :
    World σ × Except Error Request :=
  (⟨(d.newRequestWithData w.s method url data).1,
      w.trace ++ [Event.newRequestWithData method url data]⟩,
    (d.newRequestWithData w.s method url data).2)

/-- The call `s.RequestAPI(req, &target)`. -/
def callRequestAPI (d : Deps σ ρ α) (w : World σ) (req : Request) :
    World σ × Except Error ρ :=
  (⟨(d.RequestAPI w.s req).1, w.trace ++ [Event.RequestAPI req w.s.bearerToken]⟩,
    (d.RequestAPI w.s req).2)

/-- The call `s.setBearerToken(token)`. -/
def callSetBearerToken (d : Deps σ ρ α) (w : World σ) (token : String) : World σ :=
  ⟨d.setBearerToken w.s token, w.trace ++ [Event.setBearerToken token]⟩

/-- The call `s.GetUserIDByScreenName(user)`. -/
def callGetUserIDByScreenName (d : Deps σ ρ α) (w : World σ) (user : String) :
    World σ × Except Error String :=
  (⟨(d.GetUserIDByScreenName w.s user).1, w.trace ++ [Event.GetUserIDByScreenName user]⟩,
    (d.GetUserIDByScreenName w.s user).2)

/-- Records one call of a `parseTweets` method. -/
def noteParseTweets (w : World σ) : World σ := ⟨w.s, w.trace ++ [Event.parseTweets]⟩

/-- Records one call of `threadedConversation.parse`. -/
def noteParse (w : World σ) : World σ := ⟨w.s, w.trace ++ [Event.parse]⟩

end Calls

/-! ## The methods of tweets.go -/

section Methods

variable {σ ρ α : Type}

/-- The `features` literal of `FetchTweetsByUserID`. -/
def userTweetsFeatures : List (String × JSON) :=
  [("rweb_lists_timeline_redesign_enabled", JSON.bool true),
   ("responsive_web_graphql_exclude_directive_enabled", JSON.bool true),
   ("verified_phone_label_enabled", JSON.bool false),
   ("creator_subscriptions_tweet_preview_api_enabled", JSON.bool true),
   ("responsive_web_graphql_timeline_navigation_enabled", JSON.bool true),
   ("responsive_web_graphql_skip_user_profile_image_extensions_enabled", JSON.bool false),
   ("tweetypie_unmention_optimization_enabled", JSON.bool true),
   ("vibe_api_enabled", JSON.bool true),
   ("responsive_web_edit_tweet_api_enabled", JSON.bool true),
   ("graphql_is_translatable_rweb_tweet_is_translatable_enabled", JSON.bool true),
   ("view_counts_everywhere_api_enabled", JSON.bool true),
   ("longform_notetweets_consumption_enabled", JSON.bool true),
   ("tweet_awards_web_tipping_enabled", JSON.bool false),
   ("freedom_of_speech_not_reach_fetch_enabled", JSON.bool true),
   ("standardized_nudges_misinfo", JSON.bool true),
   ("tweet_with_visibility_results_prefer_gql_limited_actions_policy_enabled", JSON.bool false),
   ("interactive_text_enabled", JSON.bool true),
   ("responsive_web_text_conversations_enabled", JSON.bool false),
   ("longform_notetweets_rich_text_read_enabled", JSON.bool true),
   ("longform_notetweets_inline_media_enabled", JSON.bool false),
   ("responsive_web_enhance_cards_enabled", JSON.bool false)]

/-- The `features` literal of the graph-query branch of `GetTweet`. -/
def tweetDetailFeatures : List (String × JSON) :=
  [("rweb_lists_timeline_redesign_enabled", JSON.bool true),
   ("responsive_web_graphql_exclude_directive_enabled", JSON.bool true),
   ("verified_phone_label_enabled", JSON.bool false),
   ("creator_subscriptions_tweet_preview_api_enabled", JSON.bool true),
   ("responsive_web_graphql_timeline_navigation_enabled", JSON.bool true),
   ("responsive_web_graphql_skip_user_profile_image_extensions_enabled", JSON.bool false),
   ("tweetypie_unmention_optimization_enabled", JSON.bool true),
   ("responsive_web_edit_tweet_api_enabled", JSON.bool true),
   ("graphql_is_translatable_rweb_tweet_is_translatable_enabled", JSON.bool true),
   ("view_counts_everywhere_api_enabled", JSON.bool true),
   ("longform_notetweets_consumption_enabled", JSON.bool true),
   ("tweet_awards_web_tipping_enabled", JSON.bool false),
   ("freedom_of_speech_not_reach_fetch_enabled", JSON.bool true),
   ("standardized_nudges_misinfo", JSON.bool true),
   ("tweet_with_visibility_results_prefer_gql_limited_actions_policy_enabled", JSON.bool false),
   ("longform_notetweets_rich_text_read_enabled", JSON.bool true),
   ("longform_notetweets_inline_media_enabled", JSON.bool true),
   ("responsive_web_enhance_cards_enabled", JSON.bool false)]

/-- The `variables` map of `FetchTweetsByUserID` at the point where it is
serialised: the literal, then `variables["cursor"] = cursor` when the cursor is
not empty. `count` is the page size after the cap has been applied. -/
def userTweetsVariables (userID : String) (count : Int) (cursor : String) :
    List (String × JSON) :=
  let vars : List (String × JSON) :=
    [("userId", JSON.str userID),
     ("count", JSON.num count),
     ("includePromotedContent", JSON.bool false),
     ("withQuickPromoteEligibilityTweetFields", JSON.bool false),
     ("withVoice", JSON.bool true),
     ("withV2Timeline", JSON.bool true)]
  if cursor ≠ "" then mapSet vars "cursor" (JSON.str cursor) else vars

/-- The method `Scraper.FetchTweetsByUserID`: one page of tweets through the GraphQL API. -/
def FetchTweetsByUserID (d : Deps σ ρ α) (w : World σ) (userID : String) (maxTweetsNbr : Int)
    (cursor : String) : World σ × (List (Tweet α) × String × Option Error) :=
  let maxTweetsNbr := if maxTweetsNbr > 200 then 200 else maxTweetsNbr
  match callNewRequest d w "GET"
      "https://twitter.com/i/api/graphql/UGi7tjRPr-d_U3bCPIko5Q/UserTweets" with
  | (w1, Except.error err) => (w1, [], "", some err)
  | (w1, Except.ok req) =>
    let vars := userTweetsVariables userID maxTweetsNbr cursor
    let features := userTweetsFeatures
    let query : Values := []
    let query := query.Set "variables" (d.mapToJSONString (JSON.obj vars))
    let query := query.Set "features" (d.mapToJSONString (JSON.obj features))
    let req := { req with RawQuery := query }
    match callRequestAPI d w1 req with
    | (w2, Except.error err) => (w2, [], "", some err)
    | (w2, Except.ok timeline) =>
      (noteParseTweets w2, (d.parseTweetsV2 timeline).1, (d.parseTweetsV2 timeline).2, none)

/-- The query of `FetchTweetsByUserIDLegacy`: the query of the new request with
`count` and `userId` added, and `cursor` added when it is not empty. `count`
is the page size after the cap has been applied. -/
def legacyQuery (req : Request) (userID : String) (count : Int) (cursor : String) : Values :=
  let q := req.RawQuery
  let q := q.Add "count" (strconv_Itoa count)
  let q := q.Add "userId" userID
  if cursor ≠ "" then q.Add "cursor" cursor else q

/-- The method `Scraper.FetchTweetsByUserIDLegacy`: one page of tweets through the legacy API. -/
def FetchTweetsByUserIDLegacy (d : Deps σ ρ α) (w : World σ) (userID : String)
    (maxTweetsNbr : Int) (cursor : String) :
    World σ × (List (Tweet α) × String × Option Error) :=
  let maxTweetsNbr := if maxTweetsNbr > 200 then 200 else maxTweetsNbr
  match callNewRequest d w "GET"
      ("https://api.twitter.com/2/timeline/profile/" ++ userID ++ ".json") with
  | (w1, Except.error err) => (w1, [], "", some err)
  | (w1, Except.ok req) =>
    let req := { req with RawQuery := legacyQuery req userID maxTweetsNbr cursor }
    match callRequestAPI d w1 req with
    | (w2, Except.error err) => (w2, [], "", some err)
    | (w2, Except.ok timeline) =>
      (noteParseTweets w2, (d.parseTweetsV1 timeline).1, (d.parseTweetsV1 timeline).2, none)

/-- The method `Scraper.FetchTweets`: resolves the user, then fetches with the variant of
the account mode. -/
def FetchTweets (d : Deps σ ρ α) (w : World σ) (user : String) (maxTweetsNbr : Int)
    (cursor : String) : World σ × (List (Tweet α) × String × Option Error) :=
  match callGetUserIDByScreenName d w user with
  | (w1, Except.error err) => (w1, [], "", some err)
  | (w1, Except.ok userID) =>
    if w1.s.isOpenAccount then
      FetchTweetsByUserIDLegacy d w1 userID maxTweetsNbr cursor
    else
      FetchTweetsByUserID d w1 userID maxTweetsNbr cursor

/-- The loop `for _, tweet := range tweets { if tweet.ID == id { return tweet, nil } }`:
the first tweet of the list whose ID is `id`, if there is one. -/
def scanTweets (tweets : List (Tweet α)) (id : String) : Option (Tweet α) :=
  match tweets with
  | [] => none
  | tweet :: rest => if tweet.ID = id then some tweet else scanTweets rest id

/-- The `variables` literal of the graph-query branch of `GetTweet`. -/
def tweetDetailVariables (id : String) : List (String × JSON) :=
  [("focalTweetId", JSON.str id),
   ("with_rux_injections", JSON.bool false),
   ("includePromotedContent", JSON.bool true),
   ("withCommunity", JSON.bool true),
   ("withQuickPromoteEligibilityTweetFields", JSON.bool true),
   ("withBirdwatchNotes", JSON.bool true),
   ("withVoice", JSON.bool true),
   ("withV2Timeline", JSON.bool true)]

/-- The method `Scraper.GetTweet`: a single tweet by ID. The result is the pair
`(*Tweet, error)`, each component `none` for `nil`. -/
def GetTweet (d : Deps σ ρ α) (w : World σ) (id : String) :
    World σ × (Option (Tweet α) × Option Error) :=
  if w.s.isOpenAccount then
    match callNewRequest d w "GET"
        ("https://api.twitter.com/2/timeline/conversation/" ++ id ++ ".json") with
    | (w1, Except.error err) => (w1, none, some err)
    | (w1, Except.ok req) =>
      match callRequestAPI d w1 req with
      | (w2, Except.error err) => (w2, none, some err)
      | (w2, Except.ok timeline) =>
        match scanTweets (d.parseTweetsV1 timeline).1 id with
        | some tweet => (noteParseTweets w2, some tweet, none)
        | none => (noteParseTweets w2, none, some (errNotFound id))
  else
    match callNewRequest d w "GET"
        "https://twitter.com/i/api/graphql/VWFGPVAGkZMGRKGe3GFFnA/TweetDetail" with
    | (w1, Except.error err) => (w1, none, some err)
    | (w1, Except.ok req) =>
      let vars := tweetDetailVariables id
      let features := tweetDetailFeatures
      let query : Values := []
      let query := query.Set "variables" (d.mapToJSONString (JSON.obj vars))
      let query := query.Set "features" (d.mapToJSONString (JSON.obj features))
      let req := { req with RawQuery := query }
      let curBearerToken := w1.s.bearerToken
      let w2 := if curBearerToken ≠ d.bearerToken2 then callSetBearerToken d w1 d.bearerToken2
        else w1
      let r := callRequestAPI d w2 req
      let w4 := if curBearerToken ≠ d.bearerToken2 then callSetBearerToken d r.1 curBearerToken
        else r.1
      match r.2 with
      | Except.error err => (w4, none, some err)
      | Except.ok conversation =>
        match scanTweets (d.parseConversation conversation) id with
        | some tweet => (noteParse w4, some tweet, none)
        | none => (noteParse w4, none, some (errNotFound id))

/-- Go `json.Marshal` on a map of strings, booleans and maps: it cannot fail,
and the bytes are identified with the value they encode. -/
def json_Marshal (v : JSON) : Except Error JSON := Except.ok v

/-- The tail shared by `Bookmark`, `FavoriteTweet` and `ReTweet`: marshal the
body, build the POST request, send it and return the decoded response. -/
def postGraphQL (d : Deps σ ρ α) (w : World σ) (url : String) (requestBody : JSON) :
    World σ × (Option ρ × Option Error) :=
  match json_Marshal requestBody with
  | Except.error err => (w, none, some err)
  | Except.ok jsonData =>
    match callNewRequestWithData d w "POST" url jsonData with
    | (w1, Except.error err) => (w1, none, some err)
    | (w1, Except.ok req) =>
      match callRequestAPI d w1 req with
      | (w2, Except.error err) => (w2, none, some err)
      | (w2, Except.ok responseLikeAndBookmark) => (w2, some responseLikeAndBookmark, none)

/-- The method `Scraper.Bookmark`: posts the bookmark mutation for a tweet. -/
def Bookmark (d : Deps σ ρ α) (w : World σ) (tweetID : String) :
    World σ × (Option ρ × Option Error) :=
  let createBookmark := "https://x.com/i/api/graphql/aoDbu3RHznuiSkQ9aNM67Q/CreateBookmark"
  let requestBody := JSON.obj [("variables", JSON.obj [("tweet_id", JSON.str tweetID)])]
  postGraphQL d w createBookmark requestBody

/-- The method `Scraper.FavoriteTweet`: posts the like mutation for a tweet. -/
def FavoriteTweet (d : Deps σ ρ α) (w : World σ) (tweetID : String) :
    World σ × (Option ρ × Option Error) :=
  let favoriteTweet := "https://x.com/i/api/graphql/lI07N6Otwv1PhnEgXILM7A/FavoriteTweet"
  let requestBody := JSON.obj [("variables", JSON.obj [("tweet_id", JSON.str tweetID)])]
  postGraphQL d w favoriteTweet requestBody

/-- The method `Scraper.ReTweet`: posts the retweet mutation for a tweet. -/
def ReTweet (d : Deps σ ρ α) (w : World σ) (tweetID : String) :
    World σ × (Option ρ × Option Error) :=
  let createRetweet := "https://twitter.com/i/api/graphql/ojPdsZsimiJrUGLR1sjUtA/CreateRetweet"
  let requestBody := JSON.obj [("variables",
    JSON.obj [("tweet_id", JSON.str tweetID), ("dark_request", JSON.bool false)])]
  postGraphQL d w createRetweet requestBody

end Methods

section Helpers

variable {σ ρ α : Type}

/-- The request that the graph-query branch of `GetTweet` hands to `RequestAPI`,
from the request that `newRequest` returned. -/
def tweetDetailRequest (d : Deps σ ρ α) (req : Request) (id : String) : Request :=
  { req with RawQuery :=
      (Values.Set (Values.Set [] "variables" (d.mapToJSONString (JSON.obj (tweetDetailVariables id))))
        "features" (d.mapToJSONString (JSON.obj tweetDetailFeatures))) }

/-- The scraper on which the graph-query branch of `GetTweet` calls `RequestAPI`:
`bearerToken2` has been set unless it was the bearer token already. -/
def scraperForDetail (d : Deps σ ρ α) (s1 : Scraper σ) : Scraper σ :=
  if s1.bearerToken ≠ d.bearerToken2 then d.setBearerToken s1 d.bearerToken2 else s1

end Helpers

/-! ## Observations on traces -/

/-- The request of a `RequestAPI` event. -/
def Event.request? : Event → Option Request
  | Event.RequestAPI req _ => some req
  | _ => none

/-- The requests handed to `RequestAPI`, in call order. -/
def sentRequests (t : List Event) : List Request := t.filterMap Event.request?

/-- The bearer tokens in force at the calls of `RequestAPI`, in call order. -/
def bearersAtRequest (t : List Event) : List String :=
  t.filterMap fun e => match e with
    | Event.RequestAPI _ bearer => some bearer
    | _ => none

/-- The number of calls of a `parseTweets` or `parse` method. -/
def parseCalls (t : List Event) : Nat :=
  t.countP fun e => match e with
    | Event.parseTweets => true
    | Event.parse => true
    | _ => false

/-- The data handed to `newRequestWithData`, with method and URL, in call order. -/
def postedData (t : List Event) : List (String × String × JSON) :=
  t.filterMap fun e => match e with
    | Event.newRequestWithData method url data => some (method, url, data)
    | _ => none

/-! ## Concrete collaborators, used to run the methods on examples -/

/-- A request with the given method, URL and body, no query and no header. -/
def demoRequest (method url : String) (body : Option JSON) : Request :=
  ⟨method, url, [], body, []⟩

/-- Collaborators for examples: requests are always built, user IDs always
resolved, and `RequestAPI` answers every request with `answer`, a page of
tweets and a cursor (or an error). -/
def demoDeps (answer : Except Error (List (Tweet String) × String)) :
    Deps Unit (List (Tweet String) × String) String where
  bearerToken2 := "bearer-2"
  newRequest := fun s method url => (s, Except.ok (demoRequest method url none))
  newRequestWithData := fun s method url data => (s, Except.ok (demoRequest method url (some data)))
  RequestAPI := fun s _ => (s, answer)
  setBearerToken := fun s token => { s with bearerToken := token }
  GetUserIDByScreenName := fun s user => (s, Except.ok ("id-" ++ user))
  mapToJSONString := fun _ => "json"
  parseTweetsV1 := fun page => page
  parseTweetsV2 := fun page => page
  parseConversation := fun page => page.1

/-- Collaborators for examples whose user lookup fails with `e`. -/
def demoDepsNoUser (e : Error) : Deps Unit (List (Tweet String) × String) String :=
  { demoDeps (Except.ok ([], "")) with GetUserIDByScreenName := fun s _ => (s, Except.error e) }

/-- A scraper in the given account mode with bearer token `bearer-1`, and an empty trace. -/
def demoWorld ( isOpen : Bool) : World Unit := ⟨⟨isOpen, "bearer-1", ()⟩, []⟩

/-- A page of three tweets, two of which have ID `2`. -/
def demoPage : List (Tweet String) × String :=
  ([⟨"1", "a"⟩, ⟨"2", "b"⟩, ⟨"2", "c"⟩], "next")

section Theorems

variable {σ ρ α : Type}

/-! ### Helper lemmas -/

theorem sentRequests_append (t u : List Event) :
    sentRequests (t ++ u) = sentRequests t ++ sentRequests u := by
  simp [sentRequests]

theorem pageCap_eq_min (n : Int) : (if n > 200 then 200 else n) = min n 200 := by
  split <;> omega

theorem mapGet_mapSet_self {β : Type} (m : List (String × β)) (k : String) (v : β) :
    mapGet (mapSet m k v) k = some v := by
  induction m with
  | nil => simp [mapSet, mapGet]
  | cons p rest ih =>
    obtain ⟨k', v'⟩ := p
    by_cases h : k' = k <;> simp [mapSet, mapGet, h, ih]

theorem mapGet_mapSet_other {β : Type} (m : List (String × β)) (k k2 : String) (v : β)
    (hne : k ≠ k2) : mapGet (mapSet m k v) k2 = mapGet m k2 := by
  induction m with
  | nil => simp [mapSet, mapGet, hne]
  | cons p rest ih =>
    obtain ⟨k', v'⟩ := p
    by_cases h : k' = k
    · subst h; simp [mapSet, mapGet, hne]
    · by_cases h2 : k' = k2
      · subst h2; simp [mapSet, mapGet, h]
      · simp [mapSet, mapGet, h, h2, ih]

theorem values_Add_self (v : Values) (k x : String) :
    (v.Add k x).values k = v.values k ++ [x] := by
  simp [Values.Add, Values.values, mapGet_mapSet_self]

theorem values_Add_other (v : Values) (k k2 x : String) (hne : k ≠ k2) :
    (v.Add k x).values k2 = v.values k2 := by
  simp [Values.Add, Values.values, mapGet_mapSet_other _ _ _ _ hne]

/-- What `FetchTweetsByUserID` hands to `RequestAPI` once the request is built. -/
theorem FetchTweetsByUserID_sent (d : Deps σ ρ α) (w w1 : World σ) (userID : String)
    (maxTweetsNbr : Int) (cursor : String) (req : Request)
    (h : callNewRequest d w "GET"
      "https://twitter.com/i/api/graphql/UGi7tjRPr-d_U3bCPIko5Q/UserTweets" = (w1, Except.ok req)) :
    sentRequests (FetchTweetsByUserID d w userID maxTweetsNbr cursor).1.trace
      = sentRequests w.trace ++
        [{ req with RawQuery :=
            (Values.Set (Values.Set [] "variables" (d.mapToJSONString
                (JSON.obj (userTweetsVariables userID (min maxTweetsNbr 200) cursor))))
              "features" (d.mapToJSONString (JSON.obj userTweetsFeatures))) }] := by
  have hw1 : sentRequests w1.trace = sentRequests w.trace := by
    have := congrArg Prod.fst h
    simp only [callNewRequest] at this
    rw [← this]
    simp [sentRequests, Event.request?]
  simp only [FetchTweetsByUserID, h, pageCap_eq_min]
  split
  · rename_i w2 err hr
    have := congrArg Prod.fst hr
    simp only [callRequestAPI] at this
    rw [← this]
    rw [sentRequests_append, hw1]
    simp [sentRequests, Event.request?]
  · rename_i w2 timeline hr
    have := congrArg Prod.fst hr
    simp only [callRequestAPI] at this
    rw [← this]
    simp only [noteParseTweets]
    rw [sentRequests_append, sentRequests_append, hw1]
    simp [sentRequests, Event.request?]

/-- What `FetchTweetsByUserIDLegacy` hands to `RequestAPI` once the request is built. -/
theorem FetchTweetsByUserIDLegacy_sent (d : Deps σ ρ α) (w w1 : World σ) (userID : String)
    (maxTweetsNbr : Int) (cursor : String) (req : Request)
    (h : callNewRequest d w "GET"
      ("https://api.twitter.com/2/timeline/profile/" ++ userID ++ ".json")
        = (w1, Except.ok req)) :
    sentRequests (FetchTweetsByUserIDLegacy d w userID maxTweetsNbr cursor).1.trace
      = sentRequests w.trace ++
        [{ req with RawQuery := legacyQuery req userID (min maxTweetsNbr 200) cursor }] := by
  have hw1 : sentRequests w1.trace = sentRequests w.trace := by
    have := congrArg Prod.fst h
    simp only [callNewRequest] at this
    rw [← this]
    simp [sentRequests, Event.request?]
  simp only [FetchTweetsByUserIDLegacy, h, pageCap_eq_min]
  split
  · rename_i w2 err hr
    have := congrArg Prod.fst hr
    simp only [callRequestAPI] at this
    rw [← this]
    rw [sentRequests_append, hw1]
    simp [sentRequests, Event.request?]
  · rename_i w2 timeline hr
    have := congrArg Prod.fst hr
    simp only [callRequestAPI] at this
    rw [← this]
    simp only [noteParseTweets]
    rw [sentRequests_append, sentRequests_append, hw1]
    simp [sentRequests, Event.request?]

theorem userTweetsVariables_count (userID : String) (count : Int) (cursor : String) :
    mapGet (userTweetsVariables userID count cursor) "count" = some (JSON.num count) := by
  unfold userTweetsVariables
  split
  · rw [mapGet_mapSet_other _ _ _ _ (by decide)]
    simp [mapGet]
  · simp [mapGet]

theorem userTweetsVariables_cursor (userID : String) (count : Int) (cursor : String) :
    mapGet (userTweetsVariables userID count cursor) "cursor"
      = if cursor = "" then none else some (JSON.str cursor) := by
  unfold userTweetsVariables
  by_cases hc : cursor = ""
  · simp [hc, mapGet]
  · simp only [ne_eq, hc, not_false_eq_true, if_true, if_false]
    exact mapGet_mapSet_self _ _ _

theorem legacyQuery_count (req : Request) (userID : String) (count : Int) (cursor : String) :
    (legacyQuery req userID count cursor).values "count"
      = req.RawQuery.values "count" ++ [strconv_Itoa count] := by
  unfold legacyQuery
  split
  · rw [values_Add_other _ _ _ _ (by decide), values_Add_other _ _ _ _ (by decide),
      values_Add_self]
  · rw [values_Add_other _ _ _ _ (by decide), values_Add_self]

theorem legacyQuery_cursor (req : Request) (userID : String) (count : Int) (cursor : String) :
    (legacyQuery req userID count cursor).values "cursor"
      = req.RawQuery.values "cursor" ++ (if cursor = "" then [] else [cursor]) := by
  unfold legacyQuery
  by_cases hc : cursor = ""
  · simp only [hc, ne_eq, not_true_eq_false, if_false, if_true, List.append_nil]
    rw [values_Add_other _ _ _ _ (by decide), values_Add_other _ _ _ _ (by decide)]
  · simp only [ne_eq, hc, not_false_eq_true, if_true, if_false]
    rw [values_Add_self, values_Add_other _ _ _ _ (by decide),
      values_Add_other _ _ _ _ (by decide)]

theorem callNewRequest_eq (d : Deps σ ρ α) (w : World σ) (method url : String)
    (s1 : Scraper σ) (r : Except Error Request) (h : d.newRequest w.s method url = (s1, r)) :
    callNewRequest d w method url = (⟨s1, w.trace ++ [Event.newRequest method url]⟩, r) := by
  simp [callNewRequest, h]

theorem callRequestAPI_eq (d : Deps σ ρ α) (w : World σ) (req : Request)
    (s1 : Scraper σ) (r : Except Error ρ) (h : d.RequestAPI w.s req = (s1, r)) :
    callRequestAPI d w req = (⟨s1, w.trace ++ [Event.RequestAPI req w.s.bearerToken]⟩, r) := by
  simp [callRequestAPI, h]

/-! ### C1 -/

/-- C1: the page size that `FetchTweetsByUserID` puts in the request variable
`count`, and that `FetchTweetsByUserIDLegacy` adds to the query parameter
`count` (as its decimal representation), is `min maxTweetsNbr 200`: it is
never above 200 and a value of 200 or less is sent unchanged. -/
theorem C1_page_size_is_min_200 (d : Deps σ ρ α) (w : World σ) (userID : String)
    (maxTweetsNbr : Int) (cursor : String) :
    min maxTweetsNbr 200 ≤ 200 ∧
    (maxTweetsNbr ≤ 200 → min maxTweetsNbr 200 = maxTweetsNbr) ∧
    (∀ s1 req, d.newRequest w.s "GET"
        "https://twitter.com/i/api/graphql/UGi7tjRPr-d_U3bCPIko5Q/UserTweets"
          = (s1, Except.ok req) →
      sentRequests (FetchTweetsByUserID d w userID maxTweetsNbr cursor).1.trace
        = sentRequests w.trace ++
          [{ req with RawQuery :=
              (Values.Set (Values.Set [] "variables" (d.mapToJSONString
                  (JSON.obj (userTweetsVariables userID (min maxTweetsNbr 200) cursor))))
                "features" (d.mapToJSONString (JSON.obj userTweetsFeatures))) }] ∧
      mapGet (userTweetsVariables userID (min maxTweetsNbr 200) cursor) "count"
        = some (JSON.num (min maxTweetsNbr 200))) ∧
    (∀ s1 req, d.newRequest w.s "GET"
        ("https://api.twitter.com/2/timeline/profile/" ++ userID ++ ".json")
          = (s1, Except.ok req) →
      sentRequests (FetchTweetsByUserIDLegacy d w userID maxTweetsNbr cursor).1.trace
        = sentRequests w.trace ++
          [{ req with RawQuery := legacyQuery req userID (min maxTweetsNbr 200) cursor }] ∧
      (legacyQuery req userID (min maxTweetsNbr 200) cursor).values "count"
        = req.RawQuery.values "count" ++ [strconv_Itoa (min maxTweetsNbr 200)]) := by
  refine ⟨min_le_right _ _, fun h => min_eq_left h, ?_, ?_⟩
  · intro s1 req h
    exact ⟨FetchTweetsByUserID_sent d w _ userID maxTweetsNbr cursor req
      (callNewRequest_eq d w _ _ s1 _ h), userTweetsVariables_count _ _ _⟩
  · intro s1 req h
    exact ⟨FetchTweetsByUserIDLegacy_sent d w _ userID maxTweetsNbr cursor req
      (callNewRequest_eq d w _ _ s1 _ h), legacyQuery_count _ _ _ _⟩

/-- C1 at a concrete input: asked for 500 tweets, the GraphQL variant sends the
number 200 as `count` and the legacy variant sends the string `200`. -/
theorem C1_page_size_is_min_200_witness :
    (sentRequests (FetchTweetsByUserID (demoDeps (Except.ok demoPage)) (demoWorld false)
          "44196397" 500 "").1.trace
        = sentRequests (demoWorld false).trace ++
          [{ demoRequest "GET"
                "https://twitter.com/i/api/graphql/UGi7tjRPr-d_U3bCPIko5Q/UserTweets" none
              with RawQuery :=
              (Values.Set (Values.Set [] "variables"
                  ((demoDeps (Except.ok demoPage)).mapToJSONString
                    (JSON.obj (userTweetsVariables "44196397" (min 500 200) ""))))
                "features" ((demoDeps (Except.ok demoPage)).mapToJSONString
                  (JSON.obj userTweetsFeatures))) }] ∧
      mapGet (userTweetsVariables "44196397" (min 500 200) "") "count"
        = some (JSON.num (min 500 200))) ∧
    (sentRequests (FetchTweetsByUserIDLegacy (demoDeps (Except.ok demoPage)) (demoWorld true)
          "44196397" 500 "").1.trace
        = sentRequests (demoWorld true).trace ++
          [{ demoRequest "GET"
                ("https://api.twitter.com/2/timeline/profile/" ++ "44196397" ++ ".json") none
              with RawQuery :=
              (legacyQuery (demoRequest "GET"
                ("https://api.twitter.com/2/timeline/profile/" ++ "44196397" ++ ".json") none)
                "44196397" (min 500 200) "") }] ∧
      (legacyQuery (demoRequest "GET"
          ("https://api.twitter.com/2/timeline/profile/" ++ "44196397" ++ ".json") none)
          "44196397" (min 500 200) "").values "count"
        = (demoRequest "GET"
            ("https://api.twitter.com/2/timeline/profile/" ++ "44196397" ++ ".json")
            none).RawQuery.values "count"
          ++ [strconv_Itoa (min 500 200)]) :=
  ⟨(C1_page_size_is_min_200 (demoDeps (Except.ok demoPage)) (demoWorld false)
      "44196397" 500 "").2.2.1 _ _ rfl,
   (C1_page_size_is_min_200 (demoDeps (Except.ok demoPage)) (demoWorld true)
      "44196397" 500 "").2.2.2 _ _ rfl⟩

/-! ### C10 -/

/-- C10: `FetchTweetsByUserID` sends a `cursor` variable exactly when the
cursor is not empty, and then with the cursor as its value;
`FetchTweetsByUserIDLegacy` adds a `cursor` query parameter exactly when the
cursor is not empty, and then with the cursor as its value, so that on a new
request without `cursor` parameter the request carries one exactly then. -/
theorem C10_cursor_sent_iff_nonempty (d : Deps σ ρ α) (w : World σ) (userID : String)
    (maxTweetsNbr : Int) (cursor : String) :
    (∀ s1 req, d.newRequest w.s "GET"
        "https://twitter.com/i/api/graphql/UGi7tjRPr-d_U3bCPIko5Q/UserTweets"
          = (s1, Except.ok req) →
      sentRequests (FetchTweetsByUserID d w userID maxTweetsNbr cursor).1.trace
        = sentRequests w.trace ++
          [{ req with RawQuery :=
              (Values.Set (Values.Set [] "variables" (d.mapToJSONString
                  (JSON.obj (userTweetsVariables userID (min maxTweetsNbr 200) cursor))))
                "features" (d.mapToJSONString (JSON.obj userTweetsFeatures))) }] ∧
      mapGet (userTweetsVariables userID (min maxTweetsNbr 200) cursor) "cursor"
        = (if cursor = "" then none else some (JSON.str cursor))) ∧
    (∀ s1 req, d.newRequest w.s "GET"
        ("https://api.twitter.com/2/timeline/profile/" ++ userID ++ ".json")
          = (s1, Except.ok req) →
      sentRequests (FetchTweetsByUserIDLegacy d w userID maxTweetsNbr cursor).1.trace
        = sentRequests w.trace ++
          [{ req with RawQuery := legacyQuery req userID (min maxTweetsNbr 200) cursor }] ∧
      (legacyQuery req userID (min maxTweetsNbr 200) cursor).values "cursor"
        = req.RawQuery.values "cursor" ++ (if cursor = "" then [] else [cursor]) ∧
      (req.RawQuery.values "cursor" = [] →
        (legacyQuery req userID (min maxTweetsNbr 200) cursor).values "cursor"
          = (if cursor = "" then [] else [cursor]))) := by
  refine ⟨?_, ?_⟩
  · intro s1 req h
    exact ⟨FetchTweetsByUserID_sent d w _ userID maxTweetsNbr cursor req
      (callNewRequest_eq d w _ _ s1 _ h), userTweetsVariables_cursor _ _ _⟩
  · intro s1 req h
    refine ⟨FetchTweetsByUserIDLegacy_sent d w _ userID maxTweetsNbr cursor req
      (callNewRequest_eq d w _ _ s1 _ h), legacyQuery_cursor _ _ _ _, ?_⟩
    intro h0
    rw [legacyQuery_cursor, h0, List.nil_append]

/-- C10 at concrete inputs: the cursor `c-17` is sent as it is by the GraphQL
variant, and the legacy variant sends no cursor on the first page. -/
theorem C10_cursor_sent_iff_nonempty_witness :
    mapGet (userTweetsVariables "44196397" (min 20 200) "c-17") "cursor"
        = (if "c-17" = "" then none else some (JSON.str "c-17")) ∧
    (legacyQuery (demoRequest "GET"
        ("https://api.twitter.com/2/timeline/profile/" ++ "44196397" ++ ".json") none)
        "44196397" (min 20 200) "").values "cursor"
      = (if "" = "" then [] else [""]) :=
  ⟨((C10_cursor_sent_iff_nonempty (demoDeps (Except.ok demoPage)) (demoWorld false)
      "44196397" 20 "c-17").1 _ _ rfl).2,
   ((C10_cursor_sent_iff_nonempty (demoDeps (Except.ok demoPage)) (demoWorld true)
      "44196397" 20 "").2 _ _ rfl).2.2 rfl⟩

/-! ### C5 -/

theorem parseCalls_append (t u : List Event) :
    parseCalls (t ++ u) = parseCalls t + parseCalls u := by
  simp [parseCalls]

/-- C5: when `RequestAPI` fails with `e`, `FetchTweetsByUserID` and
`FetchTweetsByUserIDLegacy` return no tweets, the empty cursor and `e`. The
trace of the call is one `newRequest` and one `RequestAPI`: nothing is
normalized and no second request is made. -/
theorem C5_request_error_is_returned (d : Deps σ ρ α) (w : World σ) (userID : String)
    (maxTweetsNbr : Int) (cursor : String) (e : Error) :
    (∀ s1 req s2, d.newRequest w.s "GET"
        "https://twitter.com/i/api/graphql/UGi7tjRPr-d_U3bCPIko5Q/UserTweets"
          = (s1, Except.ok req) →
      d.RequestAPI s1 { req with RawQuery :=
          (Values.Set (Values.Set [] "variables" (d.mapToJSONString
              (JSON.obj (userTweetsVariables userID (min maxTweetsNbr 200) cursor))))
            "features" (d.mapToJSONString (JSON.obj userTweetsFeatures))) }
        = (s2, Except.error e) →
      (FetchTweetsByUserID d w userID maxTweetsNbr cursor).2 = ([], "", some e) ∧
      (FetchTweetsByUserID d w userID maxTweetsNbr cursor).1.s = s2 ∧
      (FetchTweetsByUserID d w userID maxTweetsNbr cursor).1.trace
        = w.trace ++
          [Event.newRequest "GET"
            "https://twitter.com/i/api/graphql/UGi7tjRPr-d_U3bCPIko5Q/UserTweets",
           Event.RequestAPI { req with RawQuery :=
              (Values.Set (Values.Set [] "variables" (d.mapToJSONString
                  (JSON.obj (userTweetsVariables userID (min maxTweetsNbr 200) cursor))))
                "features" (d.mapToJSONString (JSON.obj userTweetsFeatures))) }
            s1.bearerToken] ∧
      parseCalls (FetchTweetsByUserID d w userID maxTweetsNbr cursor).1.trace
        = parseCalls w.trace ∧
      (sentRequests (FetchTweetsByUserID d w userID maxTweetsNbr cursor).1.trace).length
        = (sentRequests w.trace).length + 1) ∧
    (∀ s1 req s2, d.newRequest w.s "GET"
        ("https://api.twitter.com/2/timeline/profile/" ++ userID ++ ".json")
          = (s1, Except.ok req) →
      d.RequestAPI s1
          { req with RawQuery := legacyQuery req userID (min maxTweetsNbr 200) cursor }
        = (s2, Except.error e) →
      (FetchTweetsByUserIDLegacy d w userID maxTweetsNbr cursor).2 = ([], "", some e) ∧
      (FetchTweetsByUserIDLegacy d w userID maxTweetsNbr cursor).1.s = s2 ∧
      (FetchTweetsByUserIDLegacy d w userID maxTweetsNbr cursor).1.trace
        = w.trace ++
          [Event.newRequest "GET"
            ("https://api.twitter.com/2/timeline/profile/" ++ userID ++ ".json"),
           Event.RequestAPI
            { req with RawQuery := legacyQuery req userID (min maxTweetsNbr 200) cursor }
            s1.bearerToken] ∧
      parseCalls (FetchTweetsByUserIDLegacy d w userID maxTweetsNbr cursor).1.trace
        = parseCalls w.trace ∧
      (sentRequests (FetchTweetsByUserIDLegacy d w userID maxTweetsNbr cursor).1.trace).length
        = (sentRequests w.trace).length + 1) := by
  refine ⟨?_, ?_⟩
  · intro s1 req s2 hnew hapi
    have hres : FetchTweetsByUserID d w userID maxTweetsNbr cursor
        = (⟨s2, (w.trace ++ [Event.newRequest "GET"
            "https://twitter.com/i/api/graphql/UGi7tjRPr-d_U3bCPIko5Q/UserTweets"]) ++
          [Event.RequestAPI { req with RawQuery :=
              (Values.Set (Values.Set [] "variables" (d.mapToJSONString
                  (JSON.obj (userTweetsVariables userID (min maxTweetsNbr 200) cursor))))
                "features" (d.mapToJSONString (JSON.obj userTweetsFeatures))) }
            s1.bearerToken]⟩, [], "", some e) := by
      simp only [FetchTweetsByUserID, callNewRequest_eq d w _ _ s1 _ hnew, pageCap_eq_min]
      rw [callRequestAPI_eq d _ _ s2 _ hapi]
    rw [hres]
    refine ⟨rfl, rfl, by simp, ?_, ?_⟩
    · simp [parseCalls]
    · simp [sentRequests, Event.request?]
  · intro s1 req s2 hnew hapi
    have hres : FetchTweetsByUserIDLegacy d w userID maxTweetsNbr cursor
        = (⟨s2, (w.trace ++ [Event.newRequest "GET"
            ("https://api.twitter.com/2/timeline/profile/" ++ userID ++ ".json")]) ++
          [Event.RequestAPI
            { req with RawQuery := legacyQuery req userID (min maxTweetsNbr 200) cursor }
            s1.bearerToken]⟩, [], "", some e) := by
      simp only [FetchTweetsByUserIDLegacy, callNewRequest_eq d w _ _ s1 _ hnew, pageCap_eq_min]
      rw [callRequestAPI_eq d _ _ s2 _ hapi]
    rw [hres]
    refine ⟨rfl, rfl, by simp, ?_, ?_⟩
    · simp [parseCalls]
    · simp [sentRequests, Event.request?]

/-- C5 at a concrete input: `RequestAPI` fails with `rate limit`, and both
variants return `(nil, "", rate limit)`. -/
theorem C5_request_error_is_returned_witness :
    (FetchTweetsByUserID (demoDeps (Except.error ⟨"rate limit"⟩)) (demoWorld false)
        "44196397" 20 "").2 = ([], "", some ⟨"rate limit"⟩) ∧
    (FetchTweetsByUserIDLegacy (demoDeps (Except.error ⟨"rate limit"⟩)) (demoWorld true)
        "44196397" 20 "").2 = ([], "", some ⟨"rate limit"⟩) :=
  ⟨((C5_request_error_is_returned (demoDeps (Except.error ⟨"rate limit"⟩)) (demoWorld false)
      "44196397" 20 "" ⟨"rate limit"⟩).1 _ _ _ rfl rfl).1,
   ((C5_request_error_is_returned (demoDeps (Except.error ⟨"rate limit"⟩)) (demoWorld true)
      "44196397" 20 "" ⟨"rate limit"⟩).2 _ _ _ rfl rfl).1⟩

/-! ### C6 -/

theorem FetchTweetsByUserID_traced (d : Deps σ ρ α) (w : World σ) (userID : String)
    (maxTweetsNbr : Int) (cursor : String) :
    ∃ rest, (FetchTweetsByUserID d w userID maxTweetsNbr cursor).1.trace
      = w.trace ++ Event.newRequest "GET"
          "https://twitter.com/i/api/graphql/UGi7tjRPr-d_U3bCPIko5Q/UserTweets" :: rest := by
  cases hnew : d.newRequest w.s "GET"
      "https://twitter.com/i/api/graphql/UGi7tjRPr-d_U3bCPIko5Q/UserTweets" with
  | mk s1 r1 =>
    simp only [FetchTweetsByUserID, callNewRequest_eq d w _ _ s1 _ hnew]
    cases r1 with
    | error err => exact ⟨[], rfl⟩
    | ok req =>
      simp only [callRequestAPI]
      split
      · rename_i w2 err h
        have h1 := congrArg Prod.fst h
        simp only at h1
        rw [← h1]
        exact ⟨_, by rw [List.append_assoc]; rfl⟩
      · rename_i w2 timeline h
        have h1 := congrArg Prod.fst h
        simp only at h1
        rw [← h1]
        exact ⟨_, by simp only [noteParseTweets]; rw [List.append_assoc, List.append_assoc]; rfl⟩

theorem FetchTweetsByUserIDLegacy_traced (d : Deps σ ρ α) (w : World σ) (userID : String)
    (maxTweetsNbr : Int) (cursor : String) :
    ∃ rest, (FetchTweetsByUserIDLegacy d w userID maxTweetsNbr cursor).1.trace
      = w.trace ++ Event.newRequest "GET"
          ("https://api.twitter.com/2/timeline/profile/" ++ userID ++ ".json") :: rest := by
  cases hnew : d.newRequest w.s "GET"
      ("https://api.twitter.com/2/timeline/profile/" ++ userID ++ ".json") with
  | mk s1 r1 =>
    simp only [FetchTweetsByUserIDLegacy, callNewRequest_eq d w _ _ s1 _ hnew]
    cases r1 with
    | error err => exact ⟨[], rfl⟩
    | ok req =>
      simp only [callRequestAPI]
      split
      · rename_i w2 err h
        have h1 := congrArg Prod.fst h
        simp only at h1
        rw [← h1]
        exact ⟨_, by rw [List.append_assoc]; rfl⟩
      · rename_i w2 timeline h
        have h1 := congrArg Prod.fst h
        simp only at h1
        rw [← h1]
        exact ⟨_, by simp only [noteParseTweets]; rw [List.append_assoc, List.append_assoc]; rfl⟩

/-- C6: when resolving the user fails with `e`, `FetchTweets` returns
`(nil, "", e)` and its trace is the single call of `GetUserIDByScreenName`, so
neither variant was called (a call of either variant adds a `newRequest` to the
trace); otherwise its result and trace are those of one call of one variant,
with the resolved user ID and the same `maxTweetsNbr` and cursor:
`FetchTweetsByUserIDLegacy` when `isOpenAccount` is true, `FetchTweetsByUserID`
when it is false. -/
theorem C6_FetchTweets_dispatch (d : Deps σ ρ α) (w : World σ) (user : String)
    (maxTweetsNbr : Int) (cursor : String) :
    (∀ s1 e, d.GetUserIDByScreenName w.s user = (s1, Except.error e) →
      FetchTweets d w user maxTweetsNbr cursor
        = (⟨s1, w.trace ++ [Event.GetUserIDByScreenName user]⟩, [], "", some e)) ∧
    (∀ s1 userID, d.GetUserIDByScreenName w.s user = (s1, Except.ok userID) →
      s1.isOpenAccount = true →
      FetchTweets d w user maxTweetsNbr cursor
        = FetchTweetsByUserIDLegacy d ⟨s1, w.trace ++ [Event.GetUserIDByScreenName user]⟩
            userID maxTweetsNbr cursor) ∧
    (∀ s1 userID, d.GetUserIDByScreenName w.s user = (s1, Except.ok userID) →
      s1.isOpenAccount = false →
      FetchTweets d w user maxTweetsNbr cursor
        = FetchTweetsByUserID d ⟨s1, w.trace ++ [Event.GetUserIDByScreenName user]⟩
            userID maxTweetsNbr cursor) ∧
    (∀ (w1 : World σ) (userID : String),
      (∃ rest, (FetchTweetsByUserIDLegacy d w1 userID maxTweetsNbr cursor).1.trace
        = w1.trace ++ Event.newRequest "GET"
            ("https://api.twitter.com/2/timeline/profile/" ++ userID ++ ".json") :: rest) ∧
      (∃ rest, (FetchTweetsByUserID d w1 userID maxTweetsNbr cursor).1.trace
        = w1.trace ++ Event.newRequest "GET"
            "https://twitter.com/i/api/graphql/UGi7tjRPr-d_U3bCPIko5Q/UserTweets" :: rest)) := by
  refine ⟨?_, ?_, ?_, ?_⟩
  · intro s1 e h
    simp [FetchTweets, callGetUserIDByScreenName, h]
  · intro s1 userID h hopen
    simp [FetchTweets, callGetUserIDByScreenName, h, hopen]
  · intro s1 userID h hopen
    simp [FetchTweets, callGetUserIDByScreenName, h, hopen]
  · intro w1 userID
    exact ⟨FetchTweetsByUserIDLegacy_traced d w1 userID maxTweetsNbr cursor,
      FetchTweetsByUserID_traced d w1 userID maxTweetsNbr cursor⟩

/-- C6 at concrete inputs: a failed lookup, an open account and a closed one. -/
theorem C6_FetchTweets_dispatch_witness :
    FetchTweets (demoDepsNoUser ⟨"no such user"⟩) (demoWorld true) "jack" 20 ""
      = (⟨(demoWorld true).s, (demoWorld true).trace ++ [Event.GetUserIDByScreenName "jack"]⟩,
          [], "", some ⟨"no such user"⟩) ∧
    FetchTweets (demoDeps (Except.ok demoPage)) (demoWorld true) "jack" 20 ""
      = FetchTweetsByUserIDLegacy (demoDeps (Except.ok demoPage))
          ⟨(demoWorld true).s, (demoWorld true).trace ++ [Event.GetUserIDByScreenName "jack"]⟩
          ("id-" ++ "jack") 20 "" ∧
    FetchTweets (demoDeps (Except.ok demoPage)) (demoWorld false) "jack" 20 ""
      = FetchTweetsByUserID (demoDeps (Except.ok demoPage))
          ⟨(demoWorld false).s, (demoWorld false).trace ++ [Event.GetUserIDByScreenName "jack"]⟩
          ("id-" ++ "jack") 20 "" :=
  ⟨(C6_FetchTweets_dispatch (demoDepsNoUser ⟨"no such user"⟩) (demoWorld true)
      "jack" 20 "").1 _ _ rfl,
   (C6_FetchTweets_dispatch (demoDeps (Except.ok demoPage)) (demoWorld true)
      "jack" 20 "").2.1 _ _ rfl rfl,
   (C6_FetchTweets_dispatch (demoDeps (Except.ok demoPage)) (demoWorld false)
      "jack" 20 "").2.2.1 _ _ rfl rfl⟩

/-! ### GetTweet -/

theorem scanTweets_first (pre post : List (Tweet α)) (t : Tweet α) (id : String)
    (ht : t.ID = id) (hpre : ∀ x ∈ pre, x.ID ≠ id) :
    scanTweets (pre ++ t :: post) id = some t := by
  induction pre with
  | nil => simp [scanTweets, ht]
  | cons x rest ih =>
    have hx : x.ID ≠ id := hpre x (List.mem_cons_self _ _)
    have hrest : ∀ y ∈ rest, y.ID ≠ id := fun y hy => hpre y (List.mem_cons_of_mem _ hy)
    simp [scanTweets, hx, ih hrest]

theorem scanTweets_none (tweets : List (Tweet α)) (id : String)
    (h : ∀ x ∈ tweets, x.ID ≠ id) : scanTweets tweets id = none := by
  induction tweets with
  | nil => simp [scanTweets]
  | cons x rest ih =>
    have hx : x.ID ≠ id := h x (List.mem_cons_self _ _)
    have hrest : ∀ y ∈ rest, y.ID ≠ id := fun y hy => h y (List.mem_cons_of_mem _ hy)
    simp [scanTweets, hx, ih hrest]

theorem scanTweets_some (tweets : List (Tweet α)) (id : String) (t : Tweet α)
    (h : scanTweets tweets id = some t) : t.ID = id ∧ t ∈ tweets := by
  induction tweets with
  | nil => simp [scanTweets] at h
  | cons x rest ih =>
    by_cases hx : x.ID = id
    · simp [scanTweets, hx] at h
      subst h
      exact ⟨hx, List.mem_cons_self _ _⟩
    · simp [scanTweets, hx] at h
      exact ⟨(ih h).1, List.mem_cons_of_mem _ (ih h).2⟩

/-- The legacy branch of `GetTweet`, once the request is built and sent. -/
theorem GetTweet_legacy (d : Deps σ ρ α) (w : World σ) (id : String)
    (hopen : w.s.isOpenAccount = true) (s1 s2 : Scraper σ) (req : Request)
    (r : Except Error ρ)
    (hnew : d.newRequest w.s "GET"
      ("https://api.twitter.com/2/timeline/conversation/" ++ id ++ ".json")
        = (s1, Except.ok req))
    (hapi : d.RequestAPI s1 req = (s2, r)) :
    GetTweet d w id =
      match r with
      | Except.error err =>
        (⟨s2, w.trace ++ [Event.newRequest "GET"
            ("https://api.twitter.com/2/timeline/conversation/" ++ id ++ ".json"),
          Event.RequestAPI req s1.bearerToken]⟩, none, some err)
      | Except.ok timeline =>
        (⟨s2, w.trace ++ [Event.newRequest "GET"
            ("https://api.twitter.com/2/timeline/conversation/" ++ id ++ ".json"),
          Event.RequestAPI req s1.bearerToken, Event.parseTweets]⟩,
          scanTweets (d.parseTweetsV1 timeline).1 id,
          match scanTweets (d.parseTweetsV1 timeline).1 id with
          | some _ => none
          | none => some (errNotFound id)) := by
  simp only [GetTweet, hopen, if_true, callNewRequest_eq d w _ _ s1 _ hnew]
  rw [callRequestAPI_eq d _ _ s2 _ hapi]
  cases r with
  | error err => simp
  | ok timeline =>
    simp only
    cases hscan : scanTweets (d.parseTweetsV1 timeline).1 id <;> simp [noteParseTweets]

/-- The graph-query branch of `GetTweet`, once the request is built and sent. -/
theorem GetTweet_graph (d : Deps σ ρ α) (w : World σ) (id : String)
    (hopen : w.s.isOpenAccount = false) (s1 s3 : Scraper σ) (req : Request)
    (r : Except Error ρ)
    (hnew : d.newRequest w.s "GET"
      "https://twitter.com/i/api/graphql/VWFGPVAGkZMGRKGe3GFFnA/TweetDetail"
        = (s1, Except.ok req))
    (hapi : d.RequestAPI (scraperForDetail d s1) (tweetDetailRequest d req id) = (s3, r)) :
    GetTweet d w id =
      (⟨if s1.bearerToken ≠ d.bearerToken2 then d.setBearerToken s3 s1.bearerToken else s3,
        w.trace ++ [Event.newRequest "GET"
            "https://twitter.com/i/api/graphql/VWFGPVAGkZMGRKGe3GFFnA/TweetDetail"]
          ++ (if s1.bearerToken ≠ d.bearerToken2 then [Event.setBearerToken d.bearerToken2]
              else [])
          ++ [Event.RequestAPI (tweetDetailRequest d req id) (scraperForDetail d s1).bearerToken]
          ++ (if s1.bearerToken ≠ d.bearerToken2 then [Event.setBearerToken s1.bearerToken]
              else [])
          ++ (match r with
              | Except.error _ => []
              | Except.ok _ => [Event.parse])⟩,
        match r with
        | Except.error err => (none, some err)
        | Except.ok conversation =>
          (scanTweets (d.parseConversation conversation) id,
            match scanTweets (d.parseConversation conversation) id with
            | some _ => none
            | none => some (errNotFound id))) := by
  simp only [GetTweet, hopen, callNewRequest_eq d w _ _ s1 _ hnew]
  by_cases hb : s1.bearerToken = d.bearerToken2
  · have hs : scraperForDetail d s1 = s1 := by simp [scraperForDetail, hb]
    rw [hs] at hapi
    simp only [hb, ne_eq, not_true_eq_false, if_false]
    rw [callRequestAPI_eq d _ _ s3 _ (by simpa [tweetDetailRequest] using hapi)]
    cases r with
    | error err => simp [tweetDetailRequest, hb, hs]
    | ok conversation =>
      simp only
      cases hscan : scanTweets (d.parseConversation conversation) id <;>
        simp [noteParse, tweetDetailRequest, hb, hs]
  · have hs : scraperForDetail d s1 = d.setBearerToken s1 d.bearerToken2 := by
      simp [scraperForDetail, hb]
    rw [hs] at hapi
    simp only [hb, ne_eq, not_false_eq_true, if_true]
    rw [callRequestAPI_eq d _ _ s3 _
      (by simpa [tweetDetailRequest, callSetBearerToken] using hapi)]
    cases r with
    | error err => simp [tweetDetailRequest, callSetBearerToken, hs]
    | ok conversation =>
      simp only
      cases hscan : scanTweets (d.parseConversation conversation) id <;>
        simp [noteParse, tweetDetailRequest, callSetBearerToken, hs]

/-! ### C2 -/

/-- C2, as stated, fails: on a page fetched without error that holds no tweet
with ID `7`, `GetTweet` returns no tweet and the error
`tweet with ID 7 not found`, in both account modes; the error result is set. -/
theorem C2_not_found_is_an_error_counterexample :
    (∀ x ∈ demoPage.1, x.ID ≠ "7") ∧
    (GetTweet (demoDeps (Except.ok demoPage)) (demoWorld true) "7").2
      = (none, some ⟨"tweet with ID 7 not found"⟩) ∧
    (GetTweet (demoDeps (Except.ok demoPage)) (demoWorld false) "7").2
      = (none, some ⟨"tweet with ID 7 not found"⟩) ∧
    ¬ ((GetTweet (demoDeps (Except.ok demoPage)) (demoWorld true) "7").2.2 = none) ∧
    ¬ ((GetTweet (demoDeps (Except.ok demoPage)) (demoWorld false) "7").2.2 = none) := by
  refine ⟨by decide, by decide, by decide, by decide, by decide⟩

/-- C2, amended: when the page is fetched without error and its normalized
tweet list holds no tweet with ID `id`, `GetTweet` returns no tweet and the
error `tweet with ID <id> not found`, in both account modes. -/
theorem C2_not_found_returns_error (d : Deps σ ρ α) (w : World σ) (id : String) :
    (w.s.isOpenAccount = true →
      ∀ s1 req s2 timeline,
        d.newRequest w.s "GET"
          ("https://api.twitter.com/2/timeline/conversation/" ++ id ++ ".json")
            = (s1, Except.ok req) →
        d.RequestAPI s1 req = (s2, Except.ok timeline) →
        (∀ x ∈ (d.parseTweetsV1 timeline).1, x.ID ≠ id) →
        (GetTweet d w id).2 = (none, some ⟨"tweet with ID " ++ id ++ " not found"⟩)) ∧
    (w.s.isOpenAccount = false →
      ∀ s1 req s3 conversation,
        d.newRequest w.s "GET"
          "https://twitter.com/i/api/graphql/VWFGPVAGkZMGRKGe3GFFnA/TweetDetail"
            = (s1, Except.ok req) →
        d.RequestAPI (scraperForDetail d s1) (tweetDetailRequest d req id)
          = (s3, Except.ok conversation) →
        (∀ x ∈ d.parseConversation conversation, x.ID ≠ id) →
        (GetTweet d w id).2 = (none, some ⟨"tweet with ID " ++ id ++ " not found"⟩)) := by
  refine ⟨?_, ?_⟩
  · intro hopen s1 req s2 timeline hnew hapi hno
    rw [GetTweet_legacy d w id hopen s1 s2 req _ hnew hapi]
    simp [scanTweets_none _ _ hno, errNotFound]
  · intro hopen s1 req s3 conversation hnew hapi hno
    rw [GetTweet_graph d w id hopen s1 s3 req _ hnew hapi]
    simp [scanTweets_none _ _ hno, errNotFound]

/-- C2, amended, at concrete inputs in both account modes. -/
theorem C2_not_found_returns_error_witness :
    (GetTweet (demoDeps (Except.ok demoPage)) (demoWorld true) "7").2
      = (none, some ⟨"tweet with ID " ++ "7" ++ " not found"⟩) ∧
    (GetTweet (demoDeps (Except.ok demoPage)) (demoWorld false) "7").2
      = (none, some ⟨"tweet with ID " ++ "7" ++ " not found"⟩) :=
  ⟨(C2_not_found_returns_error (demoDeps (Except.ok demoPage)) (demoWorld true) "7").1
      rfl _ _ _ _ rfl rfl (by decide),
   (C2_not_found_returns_error (demoDeps (Except.ok demoPage)) (demoWorld false) "7").2
      rfl _ _ _ _ rfl rfl (by decide)⟩

/-! ### C3 -/

/-- C3: whenever `GetTweet` returns a tweet, its ID is `id`; and when the page
is fetched without error and its normalized tweet list holds a tweet with ID
`id`, `GetTweet` returns the first such tweet of the list and a nil error, in
both account modes. -/
theorem C3_GetTweet_returns_first_match (d : Deps σ ρ α) (w : World σ) (id : String) :
    (∀ t, (GetTweet d w id).2.1 = some t → t.ID = id) ∧
    (w.s.isOpenAccount = true →
      ∀ s1 req s2 timeline,
        d.newRequest w.s "GET"
          ("https://api.twitter.com/2/timeline/conversation/" ++ id ++ ".json")
            = (s1, Except.ok req) →
        d.RequestAPI s1 req = (s2, Except.ok timeline) →
        ∀ pre t post, (d.parseTweetsV1 timeline).1 = pre ++ t :: post →
          t.ID = id → (∀ x ∈ pre, x.ID ≠ id) →
          (GetTweet d w id).2 = (some t, none)) ∧
    (w.s.isOpenAccount = false →
      ∀ s1 req s3 conversation,
        d.newRequest w.s "GET"
          "https://twitter.com/i/api/graphql/VWFGPVAGkZMGRKGe3GFFnA/TweetDetail"
            = (s1, Except.ok req) →
        d.RequestAPI (scraperForDetail d s1) (tweetDetailRequest d req id)
          = (s3, Except.ok conversation) →
        ∀ pre t post, d.parseConversation conversation = pre ++ t :: post →
          t.ID = id → (∀ x ∈ pre, x.ID ≠ id) →
          (GetTweet d w id).2 = (some t, none)) := by
  refine ⟨?_, ?_, ?_⟩
  · intro t ht
    cases hopen : w.s.isOpenAccount
    · cases hnew : d.newRequest w.s "GET"
          "https://twitter.com/i/api/graphql/VWFGPVAGkZMGRKGe3GFFnA/TweetDetail" with
      | mk s1 r1 =>
        cases r1 with
        | error err =>
          simp [GetTweet, hopen, callNewRequest_eq d w _ _ s1 _ hnew] at ht
        | ok req =>
          cases hapi : d.RequestAPI (scraperForDetail d s1) (tweetDetailRequest d req id) with
          | mk s3 r =>
            rw [GetTweet_graph d w id hopen s1 s3 req r hnew hapi] at ht
            cases r with
            | error err => simp at ht
            | ok conversation => exact (scanTweets_some _ _ _ ht).1
    · cases hnew : d.newRequest w.s "GET"
          ("https://api.twitter.com/2/timeline/conversation/" ++ id ++ ".json") with
      | mk s1 r1 =>
        cases r1 with
        | error err =>
          simp [GetTweet, hopen, callNewRequest_eq d w _ _ s1 _ hnew] at ht
        | ok req =>
          cases hapi : d.RequestAPI s1 req with
          | mk s2 r =>
            rw [GetTweet_legacy d w id hopen s1 s2 req r hnew hapi] at ht
            cases r with
            | error err => simp at ht
            | ok timeline => exact (scanTweets_some _ _ _ ht).1
  · intro hopen s1 req s2 timeline hnew hapi pre t post hsplit ht hpre
    rw [GetTweet_legacy d w id hopen s1 s2 req _ hnew hapi]
    simp [hsplit, scanTweets_first pre post t id ht hpre]
  · intro hopen s1 req s3 conversation hnew hapi pre t post hsplit ht hpre
    rw [GetTweet_graph d w id hopen s1 s3 req _ hnew hapi]
    simp [hsplit, scanTweets_first pre post t id ht hpre]

/-- C3 at concrete inputs: of the two tweets with ID `2` on the page, the
first one is returned, in both account modes. -/
theorem C3_GetTweet_returns_first_match_witness :
    (GetTweet (demoDeps (Except.ok demoPage)) (demoWorld true) "2").2
      = (some ⟨"2", "b"⟩, none) ∧
    (GetTweet (demoDeps (Except.ok demoPage)) (demoWorld false) "2").2
      = (some ⟨"2", "b"⟩, none) ∧
    (⟨"2", "b"⟩ : Tweet String).ID = "2" :=
  ⟨(C3_GetTweet_returns_first_match (demoDeps (Except.ok demoPage)) (demoWorld true) "2").2.1
      rfl _ _ _ _ rfl rfl [⟨"1", "a"⟩] ⟨"2", "b"⟩ [⟨"2", "c"⟩] rfl rfl (by decide),
   (C3_GetTweet_returns_first_match (demoDeps (Except.ok demoPage)) (demoWorld false) "2").2.2
      rfl _ _ _ _ rfl rfl [⟨"1", "a"⟩] ⟨"2", "b"⟩ [⟨"2", "c"⟩] rfl rfl (by decide),
   (C3_GetTweet_returns_first_match (demoDeps (Except.ok demoPage)) (demoWorld true) "2").1
      ⟨"2", "b"⟩ rfl⟩

/-! ### C4 -/

/-- C4: once the request is built, `GetTweet` calls `RequestAPI` exactly once,
in both account modes and whatever `RequestAPI` answers (an error, a page with
the tweet, a page without it): the requests sent are those sent before and
the one request of this call. -/
theorem C4_GetTweet_one_request (d : Deps σ ρ α) (w : World σ) (id : String) :
    (w.s.isOpenAccount = true →
      ∀ s1 req,
        d.newRequest w.s "GET"
          ("https://api.twitter.com/2/timeline/conversation/" ++ id ++ ".json")
            = (s1, Except.ok req) →
        sentRequests (GetTweet d w id).1.trace = sentRequests w.trace ++ [req]) ∧
    (w.s.isOpenAccount = false →
      ∀ s1 req,
        d.newRequest w.s "GET"
          "https://twitter.com/i/api/graphql/VWFGPVAGkZMGRKGe3GFFnA/TweetDetail"
            = (s1, Except.ok req) →
        sentRequests (GetTweet d w id).1.trace
          = sentRequests w.trace ++ [tweetDetailRequest d req id]) := by
  refine ⟨?_, ?_⟩
  · intro hopen s1 req hnew
    cases hapi : d.RequestAPI s1 req with
    | mk s2 r =>
      rw [GetTweet_legacy d w id hopen s1 s2 req r hnew hapi]
      cases r <;> simp [sentRequests, Event.request?]
  · intro hopen s1 req hnew
    cases hapi : d.RequestAPI (scraperForDetail d s1) (tweetDetailRequest d req id) with
    | mk s3 r =>
      rw [GetTweet_graph d w id hopen s1 s3 req r hnew hapi]
      by_cases hb : s1.bearerToken = d.bearerToken2 <;>
        cases r <;> simp [sentRequests, Event.request?, hb]

/-- C4 at concrete inputs: one request when the tweet is found (legacy mode),
one when `RequestAPI` fails (graph-query mode). -/
theorem C4_GetTweet_one_request_witness :
    sentRequests (GetTweet (demoDeps (Except.ok demoPage)) (demoWorld true) "2").1.trace
      = sentRequests (demoWorld true).trace ++
        [demoRequest "GET"
          ("https://api.twitter.com/2/timeline/conversation/" ++ "2" ++ ".json") none] ∧
    sentRequests (GetTweet (demoDeps (Except.error ⟨"rate limit"⟩)) (demoWorld false)
        "2").1.trace
      = sentRequests (demoWorld false).trace ++
        [tweetDetailRequest (demoDeps (Except.error ⟨"rate limit"⟩))
          (demoRequest "GET"
            "https://twitter.com/i/api/graphql/VWFGPVAGkZMGRKGe3GFFnA/TweetDetail" none) "2"] :=
  ⟨(C4_GetTweet_one_request (demoDeps (Except.ok demoPage)) (demoWorld true) "2").1
      rfl _ _ rfl,
   (C4_GetTweet_one_request (demoDeps (Except.error ⟨"rate limit"⟩)) (demoWorld false) "2").2
      rfl _ _ rfl⟩

/-! ### C9 -/

/-- C9: provided `newRequest` and `RequestAPI` leave the bearer token as it is
and `setBearerToken` stores its argument as the bearer token, the scraper's
bearer token after `GetTweet` is the one before the call, whatever the outcome;
and in the graph-query branch the one call of `RequestAPI` runs with
`bearerToken2` as the bearer token. -/
theorem C9_bearer_token_restored (d : Deps σ ρ α) (w : World σ) (id : String)
    (hnewFrame : ∀ s method url, (d.newRequest s method url).1.bearerToken = s.bearerToken)
    (hapiFrame : ∀ s req, (d.RequestAPI s req).1.bearerToken = s.bearerToken)
    (hset : ∀ s token, (d.setBearerToken s token).bearerToken = token) :
    (GetTweet d w id).1.s.bearerToken = w.s.bearerToken ∧
    (w.s.isOpenAccount = false →
      ∀ s1 req,
        d.newRequest w.s "GET"
          "https://twitter.com/i/api/graphql/VWFGPVAGkZMGRKGe3GFFnA/TweetDetail"
            = (s1, Except.ok req) →
        bearersAtRequest (GetTweet d w id).1.trace
          = bearersAtRequest w.trace ++ [d.bearerToken2]) := by
  have hdetail : ∀ s1 : Scraper σ, (scraperForDetail d s1).bearerToken = d.bearerToken2 := by
    intro s1
    by_cases hb : s1.bearerToken = d.bearerToken2
    · simp [scraperForDetail, hb]
    · simp [scraperForDetail, hb, hset]
  refine ⟨?_, ?_⟩
  · cases hopen : w.s.isOpenAccount
    · cases hnew : d.newRequest w.s "GET"
          "https://twitter.com/i/api/graphql/VWFGPVAGkZMGRKGe3GFFnA/TweetDetail" with
      | mk s1 r1 =>
        have h1 : s1.bearerToken = w.s.bearerToken := by
          have := hnewFrame w.s "GET"
            "https://twitter.com/i/api/graphql/VWFGPVAGkZMGRKGe3GFFnA/TweetDetail"
          rw [hnew] at this
          exact this
        cases r1 with
        | error err =>
          simp [GetTweet, hopen, callNewRequest_eq d w _ _ s1 _ hnew, h1]
        | ok req =>
          cases hapi : d.RequestAPI (scraperForDetail d s1) (tweetDetailRequest d req id) with
          | mk s3 r =>
            have h3 : s3.bearerToken = d.bearerToken2 := by
              have := hapiFrame (scraperForDetail d s1) (tweetDetailRequest d req id)
              rw [hapi, hdetail] at this
              exact this
            rw [GetTweet_graph d w id hopen s1 s3 req r hnew hapi]
            by_cases hb : s1.bearerToken = d.bearerToken2
            · simp only [hb, ne_eq, not_true_eq_false, if_false]
              rw [h3, ← hb, h1]
            · simp only [hb, ne_eq, not_false_eq_true, if_true]
              rw [hset, h1]
    · cases hnew : d.newRequest w.s "GET"
          ("https://api.twitter.com/2/timeline/conversation/" ++ id ++ ".json") with
      | mk s1 r1 =>
        have h1 : s1.bearerToken = w.s.bearerToken := by
          have := hnewFrame w.s "GET"
            ("https://api.twitter.com/2/timeline/conversation/" ++ id ++ ".json")
          rw [hnew] at this
          exact this
        cases r1 with
        | error err =>
          simp [GetTweet, hopen, callNewRequest_eq d w _ _ s1 _ hnew, h1]
        | ok req =>
          cases hapi : d.RequestAPI s1 req with
          | mk s2 r =>
            have h2 : s2.bearerToken = s1.bearerToken := by
              have := hapiFrame s1 req
              rw [hapi] at this
              exact this
            rw [GetTweet_legacy d w id hopen s1 s2 req r hnew hapi]
            cases r <;> simp [h2, h1]
  · intro hopen s1 req hnew
    cases hapi : d.RequestAPI (scraperForDetail d s1) (tweetDetailRequest d req id) with
    | mk s3 r =>
      rw [GetTweet_graph d w id hopen s1 s3 req r hnew hapi]
      by_cases hb : s1.bearerToken = d.bearerToken2 <;>
        cases r <;> simp [bearersAtRequest, hb, hdetail]

/-- C9 at a concrete input: the scraper holds `bearer-1`, `RequestAPI` runs
with `bearer-2`, and `bearer-1` is back after the call. -/
theorem C9_bearer_token_restored_witness :
    (GetTweet (demoDeps (Except.ok demoPage)) (demoWorld false) "2").1.s.bearerToken
      = (demoWorld false).s.bearerToken ∧
    bearersAtRequest (GetTweet (demoDeps (Except.ok demoPage)) (demoWorld false) "2").1.trace
      = bearersAtRequest (demoWorld false).trace
        ++ [(demoDeps (Except.ok demoPage)).bearerToken2] :=
  ⟨(C9_bearer_token_restored (demoDeps (Except.ok demoPage)) (demoWorld false) "2"
      (fun _ _ _ => rfl) (fun _ _ => rfl) (fun _ _ => rfl)).1,
   (C9_bearer_token_restored (demoDeps (Except.ok demoPage)) (demoWorld false) "2"
      (fun _ _ _ => rfl) (fun _ _ => rfl) (fun _ _ => rfl)).2 rfl _ _ rfl⟩

/-! ### C8 -/

theorem postedData_postGraphQL (d : Deps σ ρ α) (w : World σ) (url : String) (body : JSON) :
    postedData (postGraphQL d w url body).1.trace = postedData w.trace ++ [("POST", url, body)] := by
  simp only [postGraphQL, json_Marshal, callNewRequestWithData]
  split
  · rename_i w1 err h
    have := congrArg Prod.fst h
    simp only at this
    rw [← this]
    simp [postedData]
  · rename_i w1 req h
    have h1 := congrArg Prod.fst h
    simp only at h1
    simp only [callRequestAPI]
    split
    · rename_i w2 err h2
      have h3 := congrArg Prod.fst h2
      simp only at h3
      rw [← h3, ← h1]
      simp [postedData]
    · rename_i w2 resp h2
      have h3 := congrArg Prod.fst h2
      simp only at h3
      rw [← h3, ← h1]
      simp [postedData]

/-- The bodies that `Bookmark`, `FavoriteTweet` and `ReTweet` hand to
`newRequestWithData`, for every tweet ID: the map literal of each function,
whose only key is `variables`. -/
theorem postedData_mutations (d : Deps σ ρ α) (w : World σ) (tweetID : String) :
    postedData (Bookmark d w tweetID).1.trace
      = postedData w.trace ++
        [("POST", "https://x.com/i/api/graphql/aoDbu3RHznuiSkQ9aNM67Q/CreateBookmark",
          JSON.obj [("variables", JSON.obj [("tweet_id", JSON.str tweetID)])])] ∧
    postedData (FavoriteTweet d w tweetID).1.trace
      = postedData w.trace ++
        [("POST", "https://x.com/i/api/graphql/lI07N6Otwv1PhnEgXILM7A/FavoriteTweet",
          JSON.obj [("variables", JSON.obj [("tweet_id", JSON.str tweetID)])])] ∧
    postedData (ReTweet d w tweetID).1.trace
      = postedData w.trace ++
        [("POST", "https://twitter.com/i/api/graphql/ojPdsZsimiJrUGLR1sjUtA/CreateRetweet",
          JSON.obj [("variables", JSON.obj [("tweet_id", JSON.str tweetID),
            ("dark_request", JSON.bool false)])])] := by
  refine ⟨?_, ?_, ?_⟩
  · simp [Bookmark, postedData_postGraphQL]
  · simp [FavoriteTweet, postedData_postGraphQL]
  · simp [ReTweet, postedData_postGraphQL]

/-- C8: the code departs from the payload documented above each function. At
the tweet IDs of those comments, the body posted by `Bookmark`, `FavoriteTweet`
and `ReTweet` is the object with the single field `variables`; it has no
`queryId` field and so differs from the documented body, which holds
`queryId` equal to the query id of the endpoint URL. -/
theorem C8_posted_body_lacks_queryId :
    (postedData (Bookmark (demoDeps (Except.ok demoPage)) (demoWorld false)
        "1915209125442752818").1.trace
      = [("POST", "https://x.com/i/api/graphql/aoDbu3RHznuiSkQ9aNM67Q/CreateBookmark",
          JSON.obj [("variables", JSON.obj [("tweet_id", JSON.str "1915209125442752818")])])] ∧
     postedData (Bookmark (demoDeps (Except.ok demoPage)) (demoWorld false)
        "1915209125442752818").1.trace
      ≠ [("POST", "https://x.com/i/api/graphql/aoDbu3RHznuiSkQ9aNM67Q/CreateBookmark",
          JSON.obj [("variables", JSON.obj [("tweet_id", JSON.str "1915209125442752818")]),
                    ("queryId", JSON.str "aoDbu3RHznuiSkQ9aNM67Q")])]) ∧
    (postedData (FavoriteTweet (demoDeps (Except.ok demoPage)) (demoWorld false)
        "1915209125442752818").1.trace
      = [("POST", "https://x.com/i/api/graphql/lI07N6Otwv1PhnEgXILM7A/FavoriteTweet",
          JSON.obj [("variables", JSON.obj [("tweet_id", JSON.str "1915209125442752818")])])] ∧
     postedData (FavoriteTweet (demoDeps (Except.ok demoPage)) (demoWorld false)
        "1915209125442752818").1.trace
      ≠ [("POST", "https://x.com/i/api/graphql/lI07N6Otwv1PhnEgXILM7A/FavoriteTweet",
          JSON.obj [("variables", JSON.obj [("tweet_id", JSON.str "1915209125442752818")]),
                    ("queryId", JSON.str "lI07N6Otwv1PhnEgXILM7A")])]) ∧
    (postedData (ReTweet (demoDeps (Except.ok demoPage)) (demoWorld false)
        "1915033288688996493").1.trace
      = [("POST", "https://twitter.com/i/api/graphql/ojPdsZsimiJrUGLR1sjUtA/CreateRetweet",
          JSON.obj [("variables", JSON.obj [("tweet_id", JSON.str "1915033288688996493"),
            ("dark_request", JSON.bool false)])])] ∧
     postedData (ReTweet (demoDeps (Except.ok demoPage)) (demoWorld false)
        "1915033288688996493").1.trace
      ≠ [("POST", "https://twitter.com/i/api/graphql/ojPdsZsimiJrUGLR1sjUtA/CreateRetweet",
          JSON.obj [("variables", JSON.obj [("tweet_id", JSON.str "1915033288688996493"),
            ("dark_request", JSON.bool false)]),
                    ("queryId", JSON.str "ojPdsZsimiJrUGLR1sjUtA")])]) ∧
    (JSON.obj [("variables", JSON.obj [("tweet_id", JSON.str "1915209125442752818")])]).get
        "queryId" = none ∧
    (JSON.obj [("variables", JSON.obj [("tweet_id", JSON.str "1915033288688996493"),
        ("dark_request", JSON.bool false)])]).get "queryId" = none := by
  have hB := (postedData_mutations (demoDeps (Except.ok demoPage)) (demoWorld false)
    "1915209125442752818").1
  have hF := (postedData_mutations (demoDeps (Except.ok demoPage)) (demoWorld false)
    "1915209125442752818").2.1
  have hR := (postedData_mutations (demoDeps (Except.ok demoPage)) (demoWorld false)
    "1915033288688996493").2.2
  refine ⟨⟨?_, ?_⟩, ⟨?_, ?_⟩, ⟨?_, ?_⟩, ?_, ?_⟩
  · rw [hB]; simp [postedData, demoWorld]
  · rw [hB]; simp [postedData, demoWorld]
  · rw [hF]; simp [postedData, demoWorld]
  · rw [hF]; simp [postedData, demoWorld]
  · rw [hR]; simp [postedData, demoWorld]
  · rw [hR]; simp [postedData, demoWorld]
  · simp [JSON.get, JSON.fields, mapGet]
  · simp [JSON.get, JSON.fields, mapGet]

end Theorems

end TwitterScraper
